import Mathlib

/-!
Shallow embedding of `src/framework-integration/master_audit.py`.

A parsed YAML control mapping is modelled as an association list from field
name to string value (`Control`); a missing key models a Python `KeyError`
on `control['k']`.  The file system is an oracle `FileEnv : String → Option
String` (`none` = the path does not exist, `some s` = it exists with
contents `s`); the script only ever calls `os.path.exists`, modelled by
`os_path_exists`.  Fallible evaluation is `Except String`, the error being
the uncaught Python exception that aborts `main`.
-/

namespace MasterAudit

abbrev Control : Type := List (String × String)

abbrev FileEnv : Type := String → Option String

/-- `os.path.exists(path)` over the file-system oracle. -/
def os_path_exists (fs : FileEnv) (path : String) : Bool :=
  (fs path).isSome

/-- `control['k']` when the key may be absent: `control.get`-like total lookup. -/
def lookupField (c : Control) (k : String) : Option String :=
  List.lookup k c

/-- `control['k']`: raises `KeyError` when the key is absent (lines 74-89). -/
def getK (c : Control) (k : String) : Except String String :=
  match lookupField c k with
  | some v => Except.ok v
  | none => Except.error ("KeyError: " ++ k)

/-- `audit_config_file_value` (lines 26-40): existence check on the target
file, then the mocked comparison that keys only on the parameter name. -/
def audit_config_file_value (fs : FileEnv) (target_file parameter expected_value : String) :
    String × String :=
  if !(os_path_exists fs target_file) then
    ("FAIL", "File '" ++ target_file ++ "' not found.")
  else if parameter = "ENCRYPT_METHOD" then
    ("FAIL", "Expected '" ++ expected_value ++ "', found 'MD5'.")
  else
    ("PASS", "'" ++ parameter ++ "' matches baseline.")

/-- `audit_service_presence` (lines 42-47): unconditionally passes. -/
def audit_service_presence (service_name expected_status : String) :
    String × String :=
  ("PASS", "Service '" ++ service_name ++ "' status is correct.")

/-- The dispatch portion of the loop body (lines 71-81): default
`UNKNOWN`/`"Check type not implemented."`, overridden by the `if`/`elif`
chain on `control['check_type']`.  The handler arguments
`control['target']`, `control['parameter']`, `control['expected_value']`
are evaluated at the call site, in that order, and a missing one raises. -/
def dispatch (fs : FileEnv) (control : Control) : Except String (String × String) :=
  match getK control "check_type" with
  | Except.error e => Except.error e
  | Except.ok ct =>
    if ct = "config_file_value" then
      match getK control "target", getK control "parameter", getK control "expected_value" with
      | Except.ok t, Except.ok p, Except.ok ev =>
        Except.ok (audit_config_file_value fs t p ev)
      | Except.error e, _, _ => Except.error e
      | Except.ok _, Except.error e, _ => Except.error e
      | Except.ok _, Except.ok _, Except.error e => Except.error e
    else if ct = "service_process_presence" then
      match getK control "target", getK control "expected_value" with
      | Except.ok t, Except.ok ev => Except.ok (audit_service_presence t ev)
      | Except.error e, _ => Except.error e
      | Except.ok _, Except.error e => Except.error e
    else
      Except.ok ("UNKNOWN", "Check type not implemented.")

/-- One entry of `report['results']` (lines 83-93). -/
structure ControlResult where
  id : String
  title : String
  status : String
  message : String
  design_concept : String
  remediation : Option String
deriving Repr, DecidableEq

/-- The fixed fallback of `control.get('remediation_guidance', ...)` (line 92). -/
def genericRemediation : String :=
  "Review system hardening guidelines."

/-- The whole loop body for one control (lines 71-93): dispatch, then the
result dict — `control['id']`, `control['title']` and
`control['audit_snippet_relevance']` are read in that order and a missing
one raises — then the remediation attachment, only on `FAIL`, via
`control.get('remediation_guidance', <fallback>)` which never raises. -/
def evalControl (fs : FileEnv) (control : Control) : Except String ControlResult :=
  match dispatch fs control with
  | Except.error e => Except.error e
  | Except.ok sm =>
    match getK control "id", getK control "title", getK control "audit_snippet_relevance" with
    | Except.ok cid, Except.ok t, Except.ok concept =>
      Except.ok
        { id := cid, title := t, status := sm.1, message := sm.2,
          design_concept := concept,
          remediation :=
            if sm.1 = "FAIL" then
              some ((lookupField control "remediation_guidance").getD genericRemediation)
            else none }
    | Except.error e, _, _ => Except.error e
    | Except.ok _, Except.error e, _ => Except.error e
    | Except.ok _, Except.ok _, Except.error e => Except.error e

/-- What the `for control in policy['controls']` loop (lines 70-95) leaves
behind: the results appended (and printed) before any uncaught exception,
and the exception, if one aborted the loop. -/
structure AuditTrace where
  emitted : List ControlResult
  aborted : Option String
deriving Repr, DecidableEq

/-- The evaluation loop: results accumulate in order until the first
uncaught exception, which aborts the rest of the loop. -/
def runControls (fs : FileEnv) : List Control → AuditTrace
  | [] => ⟨[], none⟩
  | c :: rest =>
    match evalControl fs c with
    | Except.error e => ⟨[], some e⟩
    | Except.ok r =>
      let t := runControls fs rest
      ⟨r :: t.emitted, t.aborted⟩

/-- The parsed policy document: the two projections `main` reads, each
possibly absent (`policy['policy_name']` line 60, `policy['controls']`
line 70). -/
structure PolicyDoc where
  policy_name : Option String
  controls : Option (List Control)
deriving DecidableEq

/-- `main` after loading (lines 59-95): the report dict reads
`policy['policy_name']` before the loop, the `for` statement reads
`policy['controls']`, then the loop runs. -/
def runAudit (fs : FileEnv) (p : PolicyDoc) : AuditTrace :=
  match p.policy_name with
  | none => ⟨[], some "KeyError: policy_name"⟩
  | some _ =>
    match p.controls with
    | none => ⟨[], some "KeyError: controls"⟩
    | some cs => runControls fs cs

/-- The report object `json.dump`ed at line 103 (built at lines 59-64,
results appended at line 95); produced only when nothing aborted `main`. -/
structure Report where
  policy_name : String
  timestamp : String
  hostname : String
  results : List ControlResult
deriving Repr, DecidableEq

/-- The top-level keys of the report dict literal at lines 59-64
(`results` starts empty there and is appended to at line 95). -/
def reportTopKeys : List String :=
  ["policy_name", "timestamp", "hostname", "results"]

/-- The report `main` persists, or the exception that prevented it.
`ts` and `host` stand for `datetime.now().isoformat()` and the hostname
lookup, both opaque here. -/
def auditReport (fs : FileEnv) (ts host : String) (p : PolicyDoc) :
    Except String Report :=
  match p.policy_name with
  | none => Except.error "KeyError: policy_name"
  | some name =>
    match p.controls with
    | none => Except.error "KeyError: controls"
    | some cs =>
      match (runControls fs cs).aborted with
      | some e => Except.error e
      | none => Except.ok ⟨name, ts, host, (runControls fs cs).emitted⟩

/-- The hardcoded policy path (line 50). -/
def policy_file : String :=
  "../policies/cis_ubuntu_baseline.yaml"

/-- How a run of `main` can end. -/
inductive MainResult where
  | exitPolicyMissing : MainResult
  | parseFailed (e : String) : MainResult
  | audited (t : AuditTrace) : MainResult
deriving Repr, DecidableEq

/-- `main` end to end (lines 49-95): the existence gate with `sys.exit(1)`
(lines 50-53), then `yaml.safe_load` — an external collaborator, passed in
as `parse` — then the audit. -/
def mainRun (parse : String → Except String PolicyDoc) (fs : FileEnv) : MainResult :=
  match fs policy_file with
  | none => MainResult.exitPolicyMissing
  | some text =>
    match parse text with
    | Except.error e => MainResult.parseFailed e
    | Except.ok p => MainResult.audited (runAudit fs p)

/-! ### Concrete fixtures used by witnesses and counterexamples -/

/-- An empty file system: no path exists. -/
def fsEmpty : FileEnv := fun _ => none

/-- A well-formed service control. -/
def cService : Control :=
  [("id", "SVC-01"), ("title", "Ensure auditd is running"),
   ("check_type", "service_process_presence"), ("target", "auditd"),
   ("expected_value", "running"),
   ("audit_snippet_relevance", "Design 08")]

/-- A `config_file_value` control missing its `parameter` field. -/
def cBadParam : Control :=
  [("id", "CFG-01"), ("title", "Password hashing"),
   ("check_type", "config_file_value"), ("target", "/etc/login.defs"),
   ("expected_value", "SHA512"),
   ("audit_snippet_relevance", "Design 07")]

/-- A control whose `check_type` has no registered handler. -/
def cUnreg : Control :=
  [("id", "KRN-01"), ("title", "Kernel module check"),
   ("check_type", "kernel_module_absent"), ("target", "cramfs"),
   ("expected_value", "absent"),
   ("audit_snippet_relevance", "Design 09")]

/-- A control missing its `check_type` field. -/
def cNoType : Control :=
  [("id", "BAD-01"), ("title", "Broken control"), ("target", "x"),
   ("expected_value", "y"), ("audit_snippet_relevance", "Design 00")]

/-- A failing control whose `remediation_guidance` is present but empty. -/
def cEmptyRem : Control :=
  [("id", "CFG-02"), ("title", "Password max days"),
   ("check_type", "config_file_value"), ("target", "/etc/nonexistent.conf"),
   ("parameter", "PASS_MAX_DAYS"), ("expected_value", "90"),
   ("audit_snippet_relevance", "Design 07"),
   ("remediation_guidance", "")]

/-- The result `cService` evaluates to. -/
def rSvc : ControlResult :=
  ⟨"SVC-01", "Ensure auditd is running", "PASS",
   "Service 'auditd' status is correct.", "Design 08", none⟩

/-- The result `cUnreg` evaluates to. -/
def rUnreg : ControlResult :=
  ⟨"KRN-01", "Kernel module check", "UNKNOWN",
   "Check type not implemented.", "Design 09", none⟩

/-- A well-formed two-control policy. -/
def pGood : PolicyDoc :=
  ⟨some "CIS Ubuntu Baseline", some [cService, cUnreg]⟩

/-- A policy whose second control is missing `check_type`. -/
def pBadSecond : PolicyDoc :=
  ⟨some "CIS Ubuntu Baseline", some [cService, cNoType]⟩

/-- The report `pGood` produces on `fsEmpty`. -/
def repGood : Report :=
  ⟨"CIS Ubuntu Baseline", "ts", "host", [rSvc, rUnreg]⟩

/-- A trivial stand-in for `yaml.safe_load`. -/
def parseFixed : String → Except String PolicyDoc :=
  fun _ => Except.ok pGood

/-- A file system where `/etc/app.conf` contains `ENCRYPT_METHOD=MD5`. -/
def fsMD5 : FileEnv :=
  fun path => if path = "/etc/app.conf" then some "ENCRYPT_METHOD=MD5" else none

/-- A file system where `/etc/app.conf` contains `ENCRYPT_METHOD=SHA512`:
same existence as `fsMD5`, different contents. -/
def fsSHA : FileEnv :=
  fun path => if path = "/etc/app.conf" then some "ENCRYPT_METHOD=SHA512" else none

/-- How many results of `rs` carry status `s` (the partition a summary,
had the script built one, would be derived from). -/
def countStatus (s : String) (rs : List ControlResult) : Nat :=
  List.countP (fun r => r.status == s) rs

/-! ### Helper lemmas -/

theorem getK_ok {c : Control} {k v : String} (h : getK c k = Except.ok v) :
    lookupField c k = some v := by
  unfold getK at h
  cases hl : lookupField c k with
  | none => rw [hl] at h; cases h
  | some w => rw [hl] at h; cases h; rfl

theorem getK_of_some {c : Control} {k v : String} (h : lookupField c k = some v) :
    getK c k = Except.ok v := by
  unfold getK
  rw [h]

theorem getK_of_none {c : Control} {k : String} (h : lookupField c k = none) :
    getK c k = Except.error ("KeyError: " ++ k) := by
  unfold getK
  rw [h]

theorem audit_config_file_value_status (fs : FileEnv) (t p ev : String) :
    (audit_config_file_value fs t p ev).1 = "FAIL" ∨
      (audit_config_file_value fs t p ev).1 = "PASS" := by
  unfold audit_config_file_value
  split
  · exact Or.inl rfl
  split
  · exact Or.inl rfl
  · exact Or.inr rfl

theorem dispatch_status {fs : FileEnv} {c : Control} {sm : String × String}
    (h : dispatch fs c = Except.ok sm) :
    sm.1 = "PASS" ∨ sm.1 = "FAIL" ∨ sm.1 = "UNKNOWN" := by
  unfold dispatch at h
  cases hct : getK c "check_type" with
  | error e => rw [hct] at h; cases h
  | ok ct =>
    rw [hct] at h
    by_cases h1 : ct = "config_file_value"
    · simp only [h1, if_true] at h
      cases ht : getK c "target" with
      | error e => simp [ht] at h
      | ok t =>
        cases hp : getK c "parameter" with
        | error e => simp [ht, hp] at h
        | ok p =>
          cases hev : getK c "expected_value" with
          | error e => simp [ht, hp, hev] at h
          | ok ev =>
            simp only [ht, hp, hev] at h
            cases h
            rcases audit_config_file_value_status fs t p ev with h2 | h2
            · exact Or.inr (Or.inl h2)
            · exact Or.inl h2
    · simp only [h1, if_false] at h
      by_cases h2 : ct = "service_process_presence"
      · simp only [h2, if_true] at h
        cases ht : getK c "target" with
        | error e => simp [ht] at h
        | ok t =>
          cases hev : getK c "expected_value" with
          | error e => simp [ht, hev] at h
          | ok ev =>
            simp only [ht, hev] at h
            cases h
            exact Or.inl rfl
      · simp only [h2, if_false] at h
        cases h
        exact Or.inr (Or.inr rfl)

theorem evalControl_ok_elim {fs : FileEnv} {c : Control} {r : ControlResult}
    (h : evalControl fs c = Except.ok r) :
    ∃ sm cid t concept,
      dispatch fs c = Except.ok sm ∧
      lookupField c "id" = some cid ∧
      lookupField c "title" = some t ∧
      lookupField c "audit_snippet_relevance" = some concept ∧
      r = ⟨cid, t, sm.1, sm.2, concept,
        if sm.1 = "FAIL" then
          some ((lookupField c "remediation_guidance").getD genericRemediation)
        else none⟩ := by
  unfold evalControl at h
  cases hd : dispatch fs c with
  | error e => rw [hd] at h; cases h
  | ok sm =>
    rw [hd] at h
    cases hid : getK c "id" with
    | error e => simp [hid] at h
    | ok cid =>
      cases hti : getK c "title" with
      | error e => simp [hid, hti] at h
      | ok t =>
        cases hco : getK c "audit_snippet_relevance" with
        | error e => simp [hid, hti, hco] at h
        | ok concept =>
          simp only [hid, hti, hco] at h
          cases h
          exact ⟨sm, cid, t, concept, rfl, getK_ok hid, getK_ok hti, getK_ok hco, rfl⟩

theorem evalControl_status {fs : FileEnv} {c : Control} {r : ControlResult}
    (h : evalControl fs c = Except.ok r) :
    r.status = "PASS" ∨ r.status = "FAIL" ∨ r.status = "UNKNOWN" := by
  obtain ⟨sm, cid, t, concept, hd, _, _, _, hr⟩ := evalControl_ok_elim h
  rw [hr]
  exact dispatch_status hd

theorem evalControl_id {fs : FileEnv} {c : Control} {r : ControlResult}
    (h : evalControl fs c = Except.ok r) :
    lookupField c "id" = some r.id := by
  obtain ⟨sm, cid, t, concept, _, hid, _, _, hr⟩ := evalControl_ok_elim h
  rw [hr]
  exact hid

theorem evalControl_concept {fs : FileEnv} {c : Control} {r : ControlResult}
    (h : evalControl fs c = Except.ok r) :
    lookupField c "audit_snippet_relevance" = some r.design_concept := by
  obtain ⟨sm, cid, t, concept, _, _, _, hco, hr⟩ := evalControl_ok_elim h
  rw [hr]
  exact hco

theorem evalControl_remediation {fs : FileEnv} {c : Control} {r : ControlResult}
    (h : evalControl fs c = Except.ok r) :
    r.remediation =
      if r.status = "FAIL" then
        some ((lookupField c "remediation_guidance").getD genericRemediation)
      else none := by
  obtain ⟨sm, cid, t, concept, _, _, _, _, hr⟩ := evalControl_ok_elim h
  rw [hr]

theorem evalControl_err_of_dispatch {fs : FileEnv} {c : Control} {e : String}
    (h : dispatch fs c = Except.error e) :
    evalControl fs c = Except.error e := by
  unfold evalControl
  rw [h]

theorem runControls_cons_ok {fs : FileEnv} {c : Control} {r : ControlResult}
    (h : evalControl fs c = Except.ok r) (rest : List Control) :
    runControls fs (c :: rest) =
      ⟨r :: (runControls fs rest).emitted, (runControls fs rest).aborted⟩ := by
  simp only [runControls, h]

theorem runControls_cons_err {fs : FileEnv} {c : Control} {e : String}
    (h : evalControl fs c = Except.error e) (rest : List Control) :
    runControls fs (c :: rest) = ⟨[], some e⟩ := by
  simp only [runControls, h]

theorem runControls_mem {fs : FileEnv} {r : ControlResult} :
    ∀ {cs : List Control}, r ∈ (runControls fs cs).emitted →
      ∃ c, evalControl fs c = Except.ok r
  | [], h => by simp [runControls] at h
  | c :: rest, h => by
    cases he : evalControl fs c with
    | error e => rw [runControls_cons_err he] at h; simp at h
    | ok r0 =>
      rw [runControls_cons_ok he] at h
      rcases List.mem_cons.mp h with h1 | h2
      · exact ⟨c, h1 ▸ he⟩
      · exact runControls_mem h2

theorem runControls_mem_status {fs : FileEnv} {cs : List Control} {r : ControlResult}
    (h : r ∈ (runControls fs cs).emitted) :
    r.status = "PASS" ∨ r.status = "FAIL" ∨ r.status = "UNKNOWN" := by
  obtain ⟨c, hc⟩ := runControls_mem h
  exact evalControl_status hc

theorem runControls_ids {fs : FileEnv} :
    ∀ {cs : List Control}, (runControls fs cs).aborted = none →
      (runControls fs cs).emitted.map (fun r => some r.id) =
        cs.map (fun c => lookupField c "id")
  | [], _ => rfl
  | c :: rest, h => by
    cases he : evalControl fs c with
    | error e => rw [runControls_cons_err he] at h; cases h
    | ok r =>
      rw [runControls_cons_ok he] at h ⊢
      simp only [List.map_cons]
      rw [runControls_ids h, evalControl_id he]

theorem runControls_abort {fs : FileEnv} {c : Control} {e : String}
    (he : evalControl fs c = Except.error e) :
    ∀ (pre post : List Control),
      ((runControls fs (pre ++ c :: post)).aborted).isSome = true ∧
      (runControls fs (pre ++ c :: post)).emitted.length ≤ pre.length
  | [], post => by
    rw [List.nil_append, runControls_cons_err he]
    exact ⟨rfl, Nat.le_refl 0⟩
  | p :: pre, post => by
    cases hp : evalControl fs p with
    | error e2 =>
      rw [List.cons_append, runControls_cons_err hp]
      exact ⟨rfl, by simp⟩
    | ok r =>
      rw [List.cons_append, runControls_cons_ok hp]
      have ih := runControls_abort he pre post
      exact ⟨ih.1, by simpa using Nat.succ_le_succ ih.2⟩

theorem auditReport_ok_elim {fs : FileEnv} {ts host : String} {p : PolicyDoc}
    {rep : Report} (h : auditReport fs ts host p = Except.ok rep) :
    ∃ name cs, p.policy_name = some name ∧ p.controls = some cs ∧
      (runControls fs cs).aborted = none ∧
      rep = ⟨name, ts, host, (runControls fs cs).emitted⟩ := by
  obtain ⟨pn, pc⟩ := p
  cases pn with
  | none => exact Except.noConfusion h
  | some name =>
    cases pc with
    | none => exact Except.noConfusion h
    | some cs =>
      have h' : (match (runControls fs cs).aborted with
          | some e => (Except.error e : Except String Report)
          | none => Except.ok ⟨name, ts, host, (runControls fs cs).emitted⟩) =
          Except.ok rep := h
      cases ha : (runControls fs cs).aborted with
      | some e => rw [ha] at h'; exact Except.noConfusion h'
      | none =>
        rw [ha] at h'
        simp only [Except.ok.injEq] at h'
        exact ⟨name, cs, rfl, rfl, ha, h'.symm⟩

theorem dispatch_unregistered {fs : FileEnv} {c : Control} {ct : String}
    (hct : lookupField c "check_type" = some ct)
    (h1 : ct ≠ "config_file_value") (h2 : ct ≠ "service_process_presence") :
    dispatch fs c = Except.ok ("UNKNOWN", "Check type not implemented.") := by
  unfold dispatch
  rw [getK_of_some hct]
  simp only [h1, h2, if_false]

theorem dispatch_service {fs : FileEnv} {c : Control} {t ev : String}
    (hct : lookupField c "check_type" = some "service_process_presence")
    (ht : lookupField c "target" = some t)
    (hev : lookupField c "expected_value" = some ev) :
    dispatch fs c =
      Except.ok ("PASS", "Service '" ++ t ++ "' status is correct.") := by
  unfold dispatch
  rw [getK_of_some hct, getK_of_some ht, getK_of_some hev]
  simp [audit_service_presence]

theorem dispatch_err_config_missing {fs : FileEnv} {c : Control}
    (hct : lookupField c "check_type" = some "config_file_value")
    (hmiss : lookupField c "parameter" = none ∨
      lookupField c "expected_value" = none) :
    ∃ e, dispatch fs c = Except.error e := by
  unfold dispatch
  rw [getK_of_some hct]
  cases ht : getK c "target" with
  | error e => exact ⟨e, rfl⟩
  | ok t =>
    rcases hmiss with hp | hev
    · rw [getK_of_none hp]
      exact ⟨"KeyError: parameter", rfl⟩
    · cases hp : getK c "parameter" with
      | error e => exact ⟨e, rfl⟩
      | ok pv =>
        rw [getK_of_none hev]
        exact ⟨"KeyError: expected_value", rfl⟩

theorem evalControl_err_of_missing_concept {fs : FileEnv} {c : Control}
    (h : lookupField c "audit_snippet_relevance" = none) :
    ∃ e, evalControl fs c = Except.error e := by
  unfold evalControl
  cases hd : dispatch fs c with
  | error e => exact ⟨e, rfl⟩
  | ok sm =>
    cases hid : getK c "id" with
    | error e => exact ⟨e, rfl⟩
    | ok cid =>
      cases hti : getK c "title" with
      | error e => exact ⟨e, rfl⟩
      | ok t =>
        rw [getK_of_none h]
        exact ⟨"KeyError: audit_snippet_relevance", rfl⟩

theorem count_partition :
    ∀ rs : List ControlResult,
      (∀ r ∈ rs, r.status = "PASS" ∨ r.status = "FAIL" ∨ r.status = "UNKNOWN") →
      countStatus "PASS" rs + countStatus "FAIL" rs +
        countStatus "ERROR" rs + countStatus "UNKNOWN" rs = rs.length
  | [], _ => rfl
  | r :: rs, h => by
    have ih := count_partition rs (fun x hx => h x (List.mem_cons_of_mem _ hx))
    have hr := h r (List.mem_cons_self _ _)
    unfold countStatus at ih ⊢
    simp only [List.countP_cons, List.length_cons]
    rcases hr with h1 | h1 | h1 <;> rw [h1] <;> simp <;> omega

/-! ### Claims -/

/-- Claim C1, counterexample: `cBadParam` has the registered check type
`config_file_value`, yet the `KeyError` raised while evaluating it is not
caught and converted to an `ERROR` outcome — it aborts the loop with no
result at all, and the following control `cService` is never reported. -/
theorem c1_counterexample :
    runControls fsEmpty [cBadParam, cService] =
      ⟨[], some "KeyError: parameter"⟩ ∧
    lookupField cBadParam "check_type" = some "config_file_value" :=
  ⟨rfl, rfl⟩

/-- Claim C1, amended: the evaluation loop has no isolation boundary.  No
result it emits ever has status `ERROR`, and a failure raised while
evaluating a control propagates out of the loop, aborting the audit with
no emitted result and dropping every remaining control. -/
theorem c1_no_error_isolation :
    (∀ (fs : FileEnv) (cs : List Control) (r : ControlResult),
      r ∈ (runControls fs cs).emitted → r.status ≠ "ERROR") ∧
    (∀ (fs : FileEnv) (c : Control) (e : String) (rest : List Control),
      evalControl fs c = Except.error e →
      runControls fs (c :: rest) = ⟨[], some e⟩) := by
  constructor
  · intro fs cs r hm
    rcases runControls_mem_status hm with h | h | h <;> rw [h] <;> decide
  · intro fs c e rest he
    exact runControls_cons_err he rest

/-- Claim C1, witness: the first part of the amended claim applied to the
concrete one-control run whose emitted result is `rSvc`. -/
theorem c1_witness : rSvc.status ≠ "ERROR" :=
  c1_no_error_isolation.1 fsEmpty [cService] rSvc (by decide)

/-- Claim C2: whenever the script produces a report, its results list has
exactly one entry per control of the policy, in the policy's declared
order (entry `i` carries the `id` field of control `i`), and every entry's
status is one of the four statuses. -/
theorem c2_report_shape :
    ∀ (fs : FileEnv) (ts host : String) (p : PolicyDoc) (rep : Report),
      auditReport fs ts host p = Except.ok rep →
      ∃ cs, p.controls = some cs ∧
        rep.results.length = cs.length ∧
        rep.results.map (fun r => some r.id) =
          cs.map (fun c => lookupField c "id") ∧
        ∀ r ∈ rep.results,
          r.status = "PASS" ∨ r.status = "FAIL" ∨
          r.status = "ERROR" ∨ r.status = "UNKNOWN" := by
  intro fs ts host p rep h
  obtain ⟨name, cs, hn, hc, ha, hrep⟩ := auditReport_ok_elim h
  subst hrep
  have hmap := runControls_ids ha
  refine ⟨cs, hc, ?_, hmap, ?_⟩
  · have := congrArg List.length hmap
    simpa using this
  · intro r hr
    rcases runControls_mem_status hr with h1 | h1 | h1
    · exact Or.inl h1
    · exact Or.inr (Or.inl h1)
    · exact Or.inr (Or.inr (Or.inr h1))

/-- Claim C2, witness: the shape theorem applied to the concrete
two-control policy `pGood`, whose report is `repGood`. -/
theorem c2_witness :
    ∃ cs, pGood.controls = some cs ∧
      repGood.results.length = cs.length ∧
      repGood.results.map (fun r => some r.id) =
        cs.map (fun c => lookupField c "id") ∧
      ∀ r ∈ repGood.results,
        r.status = "PASS" ∨ r.status = "FAIL" ∨
        r.status = "ERROR" ∨ r.status = "UNKNOWN" :=
  c2_report_shape fsEmpty "ts" "host" pGood repGood rfl

/-- Claim C3, counterexample: the report dict built at lines 59-64 has no
`summary` key at all — its top-level keys are exactly `policy_name`,
`timestamp`, `hostname` and `results` — so the claimed summary with the
four counts does not exist in the produced report. -/
theorem c3_counterexample : "summary" ∉ reportTopKeys := by
  decide

/-- Claim C3, amended: the report carries no summary object (no `summary`
top-level key); nevertheless, partitioning its results list by the four
statuses yields counts that sum to the length of the results list, which
equals the number of controls of the policy. -/
theorem c3_partition :
    ("summary" ∉ reportTopKeys) ∧
    ∀ (fs : FileEnv) (ts host : String) (p : PolicyDoc) (rep : Report),
      auditReport fs ts host p = Except.ok rep →
      ∃ cs, p.controls = some cs ∧
        countStatus "PASS" rep.results + countStatus "FAIL" rep.results +
          countStatus "ERROR" rep.results + countStatus "UNKNOWN" rep.results =
          rep.results.length ∧
        rep.results.length = cs.length := by
  refine ⟨by decide, ?_⟩
  intro fs ts host p rep h
  obtain ⟨name, cs, hn, hc, ha, hrep⟩ := auditReport_ok_elim h
  subst hrep
  have hmap := runControls_ids ha
  refine ⟨cs, hc, ?_, ?_⟩
  · exact count_partition _ (fun r hr => runControls_mem_status hr)
  · have := congrArg List.length hmap
    simpa using this

/-- Claim C3, witness: the partition part of the amended claim applied to
the concrete policy `pGood` and its report `repGood`. -/
theorem c3_witness :
    ∃ cs, pGood.controls = some cs ∧
      countStatus "PASS" repGood.results + countStatus "FAIL" repGood.results +
        countStatus "ERROR" repGood.results + countStatus "UNKNOWN" repGood.results =
        repGood.results.length ∧
      repGood.results.length = cs.length :=
  c3_partition.2 fsEmpty "ts" "host" pGood repGood rfl

/-- Claim C4: a control whose `check_type` is present but registered to no
handler dispatches to status `UNKNOWN` with message exactly
`"Check type not implemented."`, without raising, regardless of the file
system or of any other field; and when the fields the result dict reads
are present, the loop emits that result and continues with the remaining
controls unchanged. -/
theorem c4_unregistered_check_type :
    ∀ (fs : FileEnv) (c : Control) (ct : String),
      lookupField c "check_type" = some ct →
      ct ≠ "config_file_value" → ct ≠ "service_process_presence" →
      dispatch fs c = Except.ok ("UNKNOWN", "Check type not implemented.") ∧
      ∀ (cid t concept : String),
        lookupField c "id" = some cid → lookupField c "title" = some t →
        lookupField c "audit_snippet_relevance" = some concept →
        ∀ rest : List Control,
          runControls fs (c :: rest) =
            ⟨⟨cid, t, "UNKNOWN", "Check type not implemented.", concept, none⟩ ::
              (runControls fs rest).emitted, (runControls fs rest).aborted⟩ := by
  intro fs c ct hct h1 h2
  have hd := @dispatch_unregistered fs c ct hct h1 h2
  refine ⟨hd, ?_⟩
  intro cid t concept hid hti hco rest
  have he : evalControl fs c =
      Except.ok ⟨cid, t, "UNKNOWN", "Check type not implemented.", concept, none⟩ := by
    unfold evalControl
    rw [hd, getK_of_some hid, getK_of_some hti, getK_of_some hco]
    exact rfl
  exact runControls_cons_ok he rest

/-- Claim C4, witness: the unregistered type `kernel_module_absent` of
`cUnreg` dispatches to `UNKNOWN` and the loop carries on to `cService`. -/
theorem c4_witness :
    dispatch fsEmpty cUnreg =
      Except.ok ("UNKNOWN", "Check type not implemented.") ∧
    runControls fsEmpty [cUnreg, cService] =
      ⟨rUnreg :: (runControls fsEmpty [cService]).emitted,
        (runControls fsEmpty [cService]).aborted⟩ := by
  have h := c4_unregistered_check_type fsEmpty cUnreg "kernel_module_absent"
    rfl (by decide) (by decide)
  exact ⟨h.1, h.2 "KRN-01" "Kernel module check" "Design 09" rfl rfl rfl [cService]⟩

/-- Claim C5, counterexample: in `pBadSecond` the second control is
missing `check_type`, yet the audit is not rejected before any check runs:
the first control is evaluated and its result emitted to the console, and
only then does the loop abort. -/
theorem c5_counterexample :
    runAudit fsEmpty pBadSecond = ⟨[rSvc], some "KeyError: check_type"⟩ :=
  rfl

/-- Claim C5, amended: a missing policy source file aborts with
`sys.exit(1)` before loading, and a missing `policy_name` or `controls`
field aborts before any check runs; but a control missing `check_type`
(or `id`) is detected only when that control is reached, after earlier
controls have run and emitted their results — a malformed control
produces a partial console audit, though the JSON report is then never
written. -/
theorem c5_no_failfast_for_control_fields :
    (∀ (parse : String → Except String PolicyDoc) (fs : FileEnv),
      fs policy_file = none → mainRun parse fs = MainResult.exitPolicyMissing) ∧
    (∀ (fs : FileEnv) (p : PolicyDoc), p.policy_name = none →
      runAudit fs p = ⟨[], some "KeyError: policy_name"⟩) ∧
    (∀ (fs : FileEnv) (p : PolicyDoc) (name : String),
      p.policy_name = some name → p.controls = none →
      runAudit fs p = ⟨[], some "KeyError: controls"⟩) ∧
    runAudit fsEmpty pBadSecond = ⟨[rSvc], some "KeyError: check_type"⟩ ∧
    auditReport fsEmpty "ts" "host" pBadSecond =
      Except.error "KeyError: check_type" := by
  refine ⟨?_, ?_, ?_, rfl, rfl⟩
  · intro parse fs h
    unfold mainRun
    rw [h]
  · intro fs p h
    unfold runAudit
    rw [h]
  · intro fs p name h1 h2
    unfold runAudit
    rw [h1, h2]

/-- Claim C5, witness: the first part of the amended claim applied to the
empty file system, where the policy file does not exist. -/
theorem c5_witness : mainRun parseFixed fsEmpty = MainResult.exitPolicyMissing :=
  c5_no_failfast_for_control_fields.1 parseFixed fsEmpty rfl

/-- Claim C6, counterexample: `cEmptyRem` fails with a present-but-empty
`remediation_guidance`, and the emitted remediation is the empty string,
not the generic fallback — `dict.get` falls back only on an absent key,
and nothing forbids an empty remediation in the report. -/
theorem c6_counterexample :
    evalControl fsEmpty cEmptyRem =
      Except.ok ⟨"CFG-02", "Password max days", "FAIL",
        "File '/etc/nonexistent.conf' not found.", "Design 07", some ""⟩ :=
  rfl

/-- Claim C6, amended: a result that receives remediation receives exactly
`control.get('remediation_guidance', <generic fallback>)`: the control's
`remediation_guidance` whenever the field is present — even when it is
empty, in which case the attached remediation is the empty string — and
the generic fallback only when the field is absent. -/
theorem c6_remediation_passthrough :
    ∀ (fs : FileEnv) (c : Control) (r : ControlResult) (s : String),
      evalControl fs c = Except.ok r → r.remediation = some s →
      s = (lookupField c "remediation_guidance").getD genericRemediation := by
  intro fs c r s h hr
  have hrem := evalControl_remediation h
  by_cases hf : r.status = "FAIL"
  · rw [hrem, if_pos hf] at hr
    exact (Option.some.injEq _ _ ▸ hr).symm
  · rw [hrem, if_neg hf] at hr
    cases hr

/-- Claim C6, witness: the amended claim applied to `cEmptyRem`, whose
attached remediation is the (empty) `remediation_guidance` value. -/
theorem c6_witness :
    "" = (lookupField cEmptyRem "remediation_guidance").getD genericRemediation :=
  c6_remediation_passthrough fsEmpty cEmptyRem
    ⟨"CFG-02", "Password max days", "FAIL",
      "File '/etc/nonexistent.conf' not found.", "Design 07", some ""⟩ "" rfl rfl

/-- Claim C7: in every emitted result, the remediation field is present if
and only if the status is `FAIL` or `ERROR` (the code attaches it exactly
on `FAIL`, and `ERROR` never occurs); `PASS` and `UNKNOWN` results carry
no remediation. -/
theorem c7_remediation_iff :
    ∀ (fs : FileEnv) (c : Control) (r : ControlResult),
      evalControl fs c = Except.ok r →
      ((r.remediation).isSome = true ↔ (r.status = "FAIL" ∨ r.status = "ERROR")) := by
  intro fs c r h
  have hrem := evalControl_remediation h
  have hst := evalControl_status h
  constructor
  · intro hs
    by_cases hf : r.status = "FAIL"
    · exact Or.inl hf
    · rw [hrem, if_neg hf] at hs
      cases hs
  · intro hs
    rcases hs with hf | he
    · rw [hrem, if_pos hf]
      rfl
    · rcases hst with h1 | h1 | h1 <;> rw [h1] at he <;> exact absurd he (by decide)

/-- Claim C7, witness: the equivalence applied to the concrete passing
result `rSvc`, which carries no remediation. -/
theorem c7_witness :
    (rSvc.remediation).isSome = true ↔ (rSvc.status = "FAIL" ∨ rSvc.status = "ERROR") :=
  c7_remediation_iff fsEmpty cService rSvc rfl

/-- Claim C8: the service-presence handler returns `PASS` with a message
naming the target service for all arguments and consults nothing outside
them; at the dispatch level the outcome of a `service_process_presence`
control is the same for every file system. -/
theorem c8_service_always_passes :
    (∀ service_name expected_status : String,
      audit_service_presence service_name expected_status =
        ("PASS", "Service '" ++ service_name ++ "' status is correct.")) ∧
    (∀ (fs : FileEnv) (c : Control) (t ev : String),
      lookupField c "check_type" = some "service_process_presence" →
      lookupField c "target" = some t →
      lookupField c "expected_value" = some ev →
      dispatch fs c =
        Except.ok ("PASS", "Service '" ++ t ++ "' status is correct.")) :=
  ⟨fun _ _ => rfl, fun _ _ _ _ h1 h2 h3 => dispatch_service h1 h2 h3⟩

/-- Claim C8, witness: the dispatch part applied to `cService` on the
empty file system. -/
theorem c8_witness :
    dispatch fsEmpty cService =
      Except.ok ("PASS", "Service '" ++ "auditd" ++ "' status is correct.") :=
  c8_service_always_passes.2 fsEmpty cService "auditd" "running" rfl rfl rfl

/-- Claim C9: when the target file exists, the config-value outcome never
depends on the file's contents — any two file systems agreeing that the
target exists yield identical outcomes — and it is `FAIL` with
`"Expected '<expected_value>', found 'MD5'."` exactly when the parameter
is `ENCRYPT_METHOD`, and `PASS` otherwise. -/
theorem c9_contents_independent :
    ∀ (fs₁ fs₂ : FileEnv) (t param ev : String),
      (fs₁ t).isSome = true → (fs₂ t).isSome = true →
      audit_config_file_value fs₁ t param ev =
        audit_config_file_value fs₂ t param ev ∧
      audit_config_file_value fs₁ t param ev =
        (if param = "ENCRYPT_METHOD" then
          ("FAIL", "Expected '" ++ ev ++ "', found 'MD5'.")
        else ("PASS", "'" ++ param ++ "' matches baseline.")) := by
  intro fs₁ fs₂ t param ev h1 h2
  unfold audit_config_file_value os_path_exists
  rw [h1, h2]
  exact ⟨rfl, rfl⟩

/-- Claim C9, witness: `fsMD5` and `fsSHA` give `/etc/app.conf` different
contents but the same existence, and the outcomes coincide. -/
theorem c9_witness :
    audit_config_file_value fsMD5 "/etc/app.conf" "ENCRYPT_METHOD" "SHA512" =
      audit_config_file_value fsSHA "/etc/app.conf" "ENCRYPT_METHOD" "SHA512" ∧
    audit_config_file_value fsMD5 "/etc/app.conf" "ENCRYPT_METHOD" "SHA512" =
      (if "ENCRYPT_METHOD" = "ENCRYPT_METHOD" then
        ("FAIL", "Expected '" ++ "SHA512" ++ "', found 'MD5'.")
      else ("PASS", "'" ++ "ENCRYPT_METHOD" ++ "' matches baseline.")) :=
  c9_contents_independent fsMD5 fsSHA "/etc/app.conf" "ENCRYPT_METHOD" "SHA512"
    (by decide) (by decide)

/-- Claim C10: every successfully evaluated control had its
`audit_snippet_relevance` field read into the result's `design_concept`;
and a control missing that field — or a `config_file_value` control
missing `parameter` or `expected_value` — raises a key-lookup error that
aborts the entire audit: wherever it sits in the policy, the loop's
outcome is aborted and no control after it is reported. -/
theorem c10_unconditional_field_reads :
    (∀ (fs : FileEnv) (c : Control) (r : ControlResult),
      evalControl fs c = Except.ok r →
      lookupField c "audit_snippet_relevance" = some r.design_concept) ∧
    (∀ (fs : FileEnv) (c : Control),
      (lookupField c "audit_snippet_relevance" = none ∨
        (lookupField c "check_type" = some "config_file_value" ∧
          (lookupField c "parameter" = none ∨
            lookupField c "expected_value" = none))) →
      ∃ e, evalControl fs c = Except.error e ∧
        ∀ pre post : List Control,
          ((runControls fs (pre ++ c :: post)).aborted).isSome = true ∧
          (runControls fs (pre ++ c :: post)).emitted.length ≤ pre.length) := by
  constructor
  · intro fs c r h
    exact evalControl_concept h
  · intro fs c h
    rcases h with h | ⟨hct, hmiss⟩
    · obtain ⟨e, he⟩ := evalControl_err_of_missing_concept h
      exact ⟨e, he, fun pre post => runControls_abort he pre post⟩
    · obtain ⟨e, hd⟩ := dispatch_err_config_missing hct hmiss
      have he := evalControl_err_of_dispatch hd
      exact ⟨e, he, fun pre post => runControls_abort he pre post⟩

/-- Claim C10, witness: `cBadParam` (a `config_file_value` control missing
`parameter`) aborts the audit wherever it is placed. -/
theorem c10_witness :
    ∃ e, evalControl fsEmpty cBadParam = Except.error e ∧
      ∀ pre post : List Control,
        ((runControls fsEmpty (pre ++ cBadParam :: post)).aborted).isSome = true ∧
        (runControls fsEmpty (pre ++ cBadParam :: post)).emitted.length ≤ pre.length :=
  c10_unconditional_field_reads.2 fsEmpty cBadParam (Or.inr ⟨rfl, Or.inl rfl⟩)

end MasterAudit
